import Mathlib

/-!
Shallow embedding of `src/nhl_scraper.py`.

The script polls an HTTP JSON endpoint once per tracked team, normalizes the
payload into per-player dictionaries, enriches the combined table with derived
ratio columns via vectorized pandas arithmetic, sorts by points descending,
and writes a CSV snapshot, looping forever with a fixed sleep.

Modelling conventions:
- pandas float64 cells are modelled exactly by `PdVal`: a finite rational, or
  NaN, or a signed infinity.  Integer-column division in pandas yields
  `+inf` for `x/0` with `x > 0`, `-inf` for `x < 0`, and `NaN` for `0/0`;
  `.fillna(0)` replaces only `NaN`; `.round` fixes NaN and infinities.
- Python exceptions are modelled with `Except PyExc`: the `try/except` in
  `get_team_stats` catches exactly the `requests.RequestException` family
  (timeouts, connection errors, `raise_for_status` HTTP errors for
  4xx/5xx, and `response.json()` decode errors), so those branches return
  `.ok []`; a `KeyError` from `player['firstName']['default']` is not caught
  and surfaces as `.error .keyError`.
- The network is abstracted as the `HttpResult` observed by one call to
  `session.get`: either a transport-level exception or a response carrying a
  status code and a parse outcome for its body.
-/

/-- The 32 tracked team codes (`TEAMS_TO_WATCH` in the script). -/
def TEAMS_TO_WATCH : List String :=
  ["ANA", "BOS", "BUF", "CGY", "CAR", "CHI", "COL", "CBJ", "DAL",
   "DET", "EDM", "FLA", "LAK", "MIN", "MTL", "NSH", "NJD", "NYI", "NYR",
   "OTT", "PHI", "PIT", "SJS", "SEA", "STL", "TBL", "TOR", "UTA", "VAN",
   "VGK", "WSH", "WPG"]

/-- `REFRESH_RATE_MINUTES = 5` in the script. -/
def REFRESH_RATE_MINUTES : Nat := 5

/-- A pandas float64 cell: a finite rational, NaN, `+inf` or `-inf`. -/
inductive PdVal where
  | num (q : ℚ)
  | nan
  | inf
  | ninf
deriving DecidableEq

/-- Pandas division of two integer cells (`df[a] / df[b]`): ordinary rational
division when the denominator is nonzero; for a zero denominator, `+inf` for a
positive numerator, `-inf` for a negative one, NaN for `0/0`. -/
def pdDiv (a b : Int) : PdVal :=
  if b ≠ 0 then .num ((a : ℚ) / (b : ℚ))
  else if 0 < a then .inf
  else if a < 0 then .ninf
  else .nan

/-- Multiplication of a float cell by the scalar 100 (`* 100`). -/
def pdMul100 : PdVal → PdVal
  | .num q => .num (q * 100)
  | .nan => .nan
  | .inf => .inf
  | .ninf => .ninf

/-- `.fillna(0)`: replaces NaN by 0 and leaves every other value, the
infinities included, unchanged. -/
def pdFillna0 : PdVal → PdVal
  | .nan => .num 0
  | v => v

/-- Round-half-to-even on rationals, the tie rule IEEE-754 floats use. -/
def roundHalfEven (q : ℚ) : ℤ :=
  if q - ⌊q⌋ < 1 / 2 then ⌊q⌋
  else if 1 / 2 < q - ⌊q⌋ then ⌊q⌋ + 1
  else if ⌊q⌋ % 2 = 0 then ⌊q⌋ else ⌊q⌋ + 1

/-- `.round(d)` on a float cell: rounds a finite value to `d` decimal places
and fixes NaN and the infinities. -/
def pdRound (d : Nat) : PdVal → PdVal
  | .num q => .num ((roundHalfEven (q * 10 ^ d) : ℚ) / 10 ^ d)
  | v => v

/-- One row of the dataframe.  The thirteen base fields are the dictionary
built by `get_team_stats`; the five derived columns and the timestamp column
are `none` until `enrich_data` assigns them. -/
structure Row where
  Team : String
  Player : String
  Position : String
  GamesPlayed : Int
  Goals : Int
  Assists : Int
  Points : Int
  Shots : Int
  PlusMinus : Int
  PIM : Int
  GWG : Int
  PPG : Int
  SHG : Int
  Pts_Per_Game : Option PdVal := none
  Shooting_Pct : Option PdVal := none
  Goal_Contribution_Pct : Option PdVal := none
  Assists_Per_Game : Option PdVal := none
  Shots_Per_Game : Option PdVal := none
  Last_Update : Option String := none
deriving DecidableEq

/-- The column assignments of `enrich_data`, per row; `ts` is the
`datetime.now().strftime(...)` string stamped on the whole batch. -/
def enrichRow (ts : String) (r : Row) : Row :=
  { r with
    Pts_Per_Game := some (pdRound 2 (pdFillna0 (pdDiv r.Points r.GamesPlayed)))
    Shooting_Pct := some (pdRound 1 (pdFillna0 (pdMul100 (pdDiv r.Goals r.Shots))))
    Goal_Contribution_Pct := some (pdRound 1 (pdFillna0 (pdMul100 (pdDiv r.Goals r.Points))))
    Assists_Per_Game := some (pdRound 2 (pdFillna0 (pdDiv r.Assists r.GamesPlayed)))
    Shots_Per_Game := some (pdRound 2 (pdFillna0 (pdDiv r.Shots r.GamesPlayed)))
    Last_Update := some ts }

/-- `enrich_data`: the vectorized column arithmetic, applied elementwise. -/
def enrich_data (ts : String) (df : List Row) : List Row :=
  df.map (enrichRow ts)

/-- `cols_order` from `main`: the explicit column order of the CSV. -/
def cols_order : List String :=
  ["Player", "Team", "Position", "GamesPlayed", "Points",
   "Goals", "Assists", "Pts_Per_Game", "Shooting_Pct",
   "PlusMinus", "PIM", "GWG", "PPG", "SHG",
   "Goal_Contribution_Pct", "Assists_Per_Game", "Shots_Per_Game",
   "Last_Update"]

/-- A serialized cell: a string, an integer, a float, or a missing value. -/
inductive CellVal where
  | s (v : String)
  | i (v : Int)
  | p (v : PdVal)
  | missing
deriving DecidableEq

/-- Projection of a derived (float) column that may not have been assigned. -/
def derivedCell : Option PdVal → CellVal
  | some v => .p v
  | none => .missing

/-- Projection of the timestamp column. -/
def timeCell : Option String → CellVal
  | some t => .s t
  | none => .missing

/-- Column projection `df[c]` for one row. -/
def rowCell (r : Row) : String → CellVal
  | "Team" => .s r.Team
  | "Player" => .s r.Player
  | "Position" => .s r.Position
  | "GamesPlayed" => .i r.GamesPlayed
  | "Goals" => .i r.Goals
  | "Assists" => .i r.Assists
  | "Points" => .i r.Points
  | "Shots" => .i r.Shots
  | "PlusMinus" => .i r.PlusMinus
  | "PIM" => .i r.PIM
  | "GWG" => .i r.GWG
  | "PPG" => .i r.PPG
  | "SHG" => .i r.SHG
  | "Pts_Per_Game" => derivedCell r.Pts_Per_Game
  | "Shooting_Pct" => derivedCell r.Shooting_Pct
  | "Goal_Contribution_Pct" => derivedCell r.Goal_Contribution_Pct
  | "Assists_Per_Game" => derivedCell r.Assists_Per_Game
  | "Shots_Per_Game" => derivedCell r.Shots_Per_Game
  | "Last_Update" => timeCell r.Last_Update
  | _ => .missing

/-- One CSV data record as written by `df_final[cols_order].to_csv`:
the row's cells in the order of `cols_order`. -/
def csvRecord (r : Row) : List CellVal :=
  cols_order.map (rowCell r)

/-- The sort key relation of `sort_values(by=Points, ascending=False)`:
`a` may precede `b` when `a` has at least as many points. -/
def pointsGE (a b : Row) : Prop := b.Points ≤ a.Points

instance : DecidableRel pointsGE :=
  fun a b => inferInstanceAs (Decidable (b.Points ≤ a.Points))

instance : IsTotal Row pointsGE := ⟨fun a b => le_total b.Points a.Points⟩

instance : IsTrans Row pointsGE := ⟨fun _ _ _ hab hbc => le_trans hbc hab⟩

/-- `df.sort_values(by=Points, ascending=False)`.  pandas' default quicksort
leaves the order of equal keys implementation-defined; it is modelled by a
sort that is correct for the same key. -/
def sortByPointsDesc (l : List Row) : List Row :=
  List.insertionSort pointsGE l

/-- Python exceptions that can cross the boundaries modelled here. -/
inductive PyExc where
  | keyError
  | indexError
  | osError
deriving DecidableEq

/-- `d['k']`: raises `KeyError` when the key is absent. -/
def dictIndex {α : Type} : Option α → Except PyExc α
  | some v => .ok v
  | none => .error .keyError

/-- One element of the `skaters` list of the JSON body.  A `none` at the
outer level models an absent key; `firstName`/`lastName` are nested objects
whose inner `Option` models the presence of their `default` subfield. -/
structure SkaterJson where
  firstName : Option (Option String)
  lastName : Option (Option String)
  positionCode : Option String
  gamesPlayed : Option Int
  goals : Option Int
  assists : Option Int
  points : Option Int
  shots : Option Int
  plusMinus : Option Int
  penaltyMinutes : Option Int
  gameWinningGoals : Option Int
  powerPlayGoals : Option Int
  shorthandedGoals : Option Int
deriving DecidableEq

/-- The parsed JSON body of a club-stats response; `skaters = none` models a
body without the top-level `skaters` field (`data.get('skaters', [])`). -/
structure ClubStatsJson where
  skaters : Option (List SkaterJson)
deriving DecidableEq

/-- The body of the per-player loop of `get_team_stats`: builds the raw
dictionary.  `player['firstName']['default']` and
`player['lastName']['default']` index directly and raise `KeyError` on an
absent key; every other field is read with `.get` and a default. -/
def processSkater (team_abbr : String) (p : SkaterJson) : Except PyExc Row := do
  let firstObj ← dictIndex p.firstName
  let firstDefault ← dictIndex firstObj
  let lastObj ← dictIndex p.lastName
  let lastDefault ← dictIndex lastObj
  pure
    { Team := team_abbr
      Player := firstDefault ++ " " ++ lastDefault
      Position := p.positionCode.getD "N/A"
      GamesPlayed := p.gamesPlayed.getD 0
      Goals := p.goals.getD 0
      Assists := p.assists.getD 0
      Points := p.points.getD 0
      Shots := p.shots.getD 0
      PlusMinus := p.plusMinus.getD 0
      PIM := p.penaltyMinutes.getD 0
      GWG := p.gameWinningGoals.getD 0
      PPG := p.powerPlayGoals.getD 0
      SHG := p.shorthandedGoals.getD 0 }

/-- What one `session.get` call observes: a transport-level
`RequestException` (timeout, connection error), or a response with a status
code and a body whose JSON parse either fails or yields a `ClubStatsJson`. -/
inductive HttpResult where
  | transportError
  | response (status : Nat) (body : Except Unit ClubStatsJson)

/-- The outcome of `get_team_stats`: the returned list (or the uncaught
exception), and how long `time.sleep` was called for inside the fetch. -/
structure FetchResult where
  result : Except PyExc (List Row)
  sleptSeconds : Nat

/-- `get_team_stats`.  A 429 status sleeps 5 seconds and returns `[]`;
`raise_for_status` raises for any 4xx/5xx status and that `HTTPError`, like a
transport error or a JSON decode error, is caught by the
`except RequestException` clause and turned into `[]`; a `KeyError` from the
per-player loop is not caught and propagates. -/
def get_team_stats (team_abbr : String) (outcome : HttpResult) : FetchResult :=
  match outcome with
  | .transportError => ⟨.ok [], 0⟩
  | .response status body =>
    if status = 429 then ⟨.ok [], 5⟩
    else if 400 ≤ status ∧ status < 600 then ⟨.ok [], 0⟩
    else
      match body with
      | .error _ => ⟨.ok [], 0⟩
      | .ok data => ⟨(data.skaters.getD []).mapM (processSkater team_abbr), 0⟩

/-- The fetch half of one cycle of `main`: one `get_team_stats` call per
tracked entity, in order, extending `all_data` with each nonempty result.  An
uncaught exception from any fetch aborts the cycle. -/
def fetchAll : List (String × HttpResult) → Except PyExc (List Row)
  | [] => .ok []
  | (team, outcome) :: rest => do
    let team_data ← (get_team_stats team outcome).result
    let acc ← fetchAll rest
    pure (team_data ++ acc)

/-- What happens when `df_final.to_csv(OUTPUT_FILE)` is attempted: success, a
`PermissionError` (the destination is exclusively locked elsewhere), or some
other `OSError`. -/
inductive WriteOutcome where
  | ok
  | permissionError
  | otherError
deriving DecidableEq

/-- Observable trace of one cycle body: whether enrichment ran, the snapshot
written (if any), the cycle's report line, and the sleep that follows. -/
structure CycleTrace where
  enriched : Bool
  written : Option (List Row)
  message : String
  sleepSeconds : Nat
deriving DecidableEq

/-- The post-fetch body of one `while True` iteration of `main`: if
`all_data` is nonempty, build the dataframe, enrich, reorder the columns,
sort by points descending, and try to write — catching exactly
`PermissionError`; otherwise report no data.  Either way the cycle then
sleeps `REFRESH_RATE_MINUTES * 60` seconds. -/
def cycleBody (all_data : List Row) (ts : String) (w : WriteOutcome) :
    Except PyExc CycleTrace :=
  if all_data.isEmpty then
    .ok { enriched := false, written := none, message := "No data received.",
          sleepSeconds := REFRESH_RATE_MINUTES * 60 }
  else
    let df_final := sortByPointsDesc (enrich_data ts all_data)
    match w with
    | .ok =>
      match df_final with
      | [] => .error .indexError
      | leader :: _ =>
        .ok { enriched := true, written := some df_final,
              message := "Data Saved. Leader: " ++ leader.Player ++ " (" ++
                leader.Team ++ ") - " ++ toString leader.Points ++ " pts",
              sleepSeconds := REFRESH_RATE_MINUTES * 60 }
    | .permissionError =>
      .ok { enriched := true, written := none,
            message := "ERROR: Close the CSV file! Cannot write while open.",
            sleepSeconds := REFRESH_RATE_MINUTES * 60 }
    | .otherError => .error .osError

/-- One full cycle: fetch every entity, then run the cycle body. -/
def runCycle (outcomes : List (String × HttpResult)) (ts : String)
    (w : WriteOutcome) : Except PyExc CycleTrace := do
  let all_data ← fetchAll outcomes
  cycleBody all_data ts w

/-! ## Concrete inputs used by counterexamples and witnesses -/

/-- A raw record with zero games played but positive counting stats. -/
def zeroGamesRow : Row :=
  { Team := "BOS", Player := "Test Skater", Position := "C",
    GamesPlayed := 0, Goals := 2, Assists := 3, Points := 5, Shots := 4,
    PlusMinus := 0, PIM := 0, GWG := 0, PPG := 0, SHG := 0 }

/-- A raw record with a goal but zero shots and zero points on file. -/
def zeroShotsRow : Row :=
  { Team := "BOS", Player := "Test Skater", Position := "C",
    GamesPlayed := 10, Goals := 1, Assists := 0, Points := 0, Shots := 0,
    PlusMinus := 0, PIM := 0, GWG := 0, PPG := 0, SHG := 0 }

/-- The spec's example raw record (Brad Marchand, 10 points). -/
def demoRawBOS : Row :=
  { Team := "BOS", Player := "Brad Marchand", Position := "LW",
    GamesPlayed := 10, Goals := 5, Assists := 5, Points := 10, Shots := 50,
    PlusMinus := 0, PIM := 0, GWG := 0, PPG := 0, SHG := 0 }

/-- The example record after enrichment. -/
def demoRowBOS : Row := enrichRow "2026-10-12 00:00:00" demoRawBOS

/-- A low-scoring raw record (1 point). -/
def demoRowOTT : Row :=
  { Team := "OTT", Player := "Low Scorer", Position := "D",
    GamesPlayed := 10, Goals := 0, Assists := 1, Points := 1, Shots := 5,
    PlusMinus := 0, PIM := 0, GWG := 0, PPG := 0, SHG := 0 }

/-- A two-row input, low scorer first, for the sorting witness. -/
def demoSnapshotInput : List Row := [demoRowOTT, demoRawBOS]

/-- A skater object whose `firstName` key is absent. -/
def badSkater : SkaterJson :=
  { firstName := none, lastName := some (some "Marchand"),
    positionCode := some "LW", gamesPlayed := some 10, goals := some 5,
    assists := some 5, points := some 10, shots := some 50,
    plusMinus := some 0, penaltyMinutes := some 0, gameWinningGoals := some 0,
    powerPlayGoals := some 0, shorthandedGoals := some 0 }

/-- A well-formed skater object; `processSkater` turns it into `demoRawBOS`. -/
def goodSkater : SkaterJson :=
  { firstName := some (some "Brad"), lastName := some (some "Marchand"),
    positionCode := some "LW", gamesPlayed := some 10, goals := some 5,
    assists := some 5, points := some 10, shots := some 50,
    plusMinus := some 0, penaltyMinutes := some 0, gameWinningGoals := some 0,
    powerPlayGoals := some 0, shorthandedGoals := some 0 }

/-! ## Helper lemmas -/

/-- Re-running the column assignments of `enrich_data` on a row whose base
fields are unchanged recomputes the same derived values. -/
theorem enrichRow_idem (ts : String) (r : Row) :
    enrichRow ts (enrichRow ts r) = enrichRow ts r := rfl

/-- The output of `sort_values(by=Points, ascending=False)` is sorted for the
descending-points relation. -/
theorem sortByPointsDesc_sorted (l : List Row) :
    List.Sorted pointsGE (sortByPointsDesc l) :=
  List.sorted_insertionSort pointsGE l

/-- The fetch outcomes `get_team_stats` catches and maps to an empty list:
transport-level request exceptions, HTTP 4xx/5xx statuses other than 429,
and bodies whose JSON fails to parse. -/
def handledTransportFailure : HttpResult → Prop
  | .transportError => True
  | .response s b => (400 ≤ s ∧ s < 600 ∧ s ≠ 429) ∨ b = .error ()

/-! ## Claims -/

/-- C1: the spec requires that a record with zero games played get 0 for all
three per-game ratios and that no derived field be infinite; the code
instead produces `+inf` for each ratio whenever the numerator is positive,
because pandas integer division by zero yields `inf` (not NaN) for a nonzero
numerator and `.fillna(0)` replaces only NaN.  This theorem evaluates the
enrichment at such a record. -/
theorem c1_zero_games_yields_infinite_ratios :
    (enrichRow "2026-10-12 00:00:00" zeroGamesRow).Pts_Per_Game = some PdVal.inf ∧
    (enrichRow "2026-10-12 00:00:00" zeroGamesRow).Assists_Per_Game = some PdVal.inf ∧
    (enrichRow "2026-10-12 00:00:00" zeroGamesRow).Shots_Per_Game = some PdVal.inf :=
  ⟨rfl, rfl, rfl⟩

/-- C2: the spec requires shooting% = 0 whenever shots = 0 and
goal-contribution% = 0 whenever points = 0, regardless of goals; the code
instead produces `+inf` for both whenever goals is positive, for the same
fillna-misses-inf reason as C1.  This theorem evaluates the enrichment at a
record with goals = 1, shots = 0, points = 0. -/
theorem c2_zero_shots_yields_infinite_percentages :
    (enrichRow "2026-10-12 00:00:00" zeroShotsRow).Shooting_Pct = some PdVal.inf ∧
    (enrichRow "2026-10-12 00:00:00" zeroShotsRow).Goal_Contribution_Pct = some PdVal.inf :=
  ⟨rfl, rfl⟩

/-- C3 counterexample: the claim says the serialized column order puts the
entity column first and the player column second; in the code's `cols_order`
it is the other way round, so at a concrete enriched record the first two
serialized cells are not (entity, player). -/
theorem c3_counterexample :
    ¬ ((csvRecord demoRowBOS).take 2 =
        [CellVal.s demoRowBOS.Team, CellVal.s demoRowBOS.Player]) := by
  decide

/-- C3 amended: the snapshot writer serializes every record with the fixed
column order player first, then entity, position, games-played, points,
goals, assists, then points-per-game and shooting%, then the remaining
counting fields, then the remaining derived fields, with the timestamp
column last. -/
theorem c3_amended_column_order (r : Row) :
    csvRecord r =
      [CellVal.s r.Player, CellVal.s r.Team, CellVal.s r.Position,
       CellVal.i r.GamesPlayed, CellVal.i r.Points, CellVal.i r.Goals,
       CellVal.i r.Assists, derivedCell r.Pts_Per_Game,
       derivedCell r.Shooting_Pct, CellVal.i r.PlusMinus, CellVal.i r.PIM,
       CellVal.i r.GWG, CellVal.i r.PPG, CellVal.i r.SHG,
       derivedCell r.Goal_Contribution_Pct, derivedCell r.Assists_Per_Game,
       derivedCell r.Shots_Per_Game, timeCell r.Last_Update] := rfl

/-- C4: in every written snapshot, records are sorted by points descending:
if record `A` (at position `i`) has strictly more points than record `B`
(at position `j`), then `A` appears before `B`. -/
theorem c4_points_desc (l : List Row) (i j : Nat)
    (hi : i < (sortByPointsDesc l).length) (hj : j < (sortByPointsDesc l).length)
    (h : ((sortByPointsDesc l).get ⟨j, hj⟩).Points <
         ((sortByPointsDesc l).get ⟨i, hi⟩).Points) : i < j := by
  by_contra hij
  push_neg at hij
  rcases Nat.lt_or_ge j i with hlt | hge
  · have hrel := (sortByPointsDesc_sorted l).rel_get_of_lt
      (a := ⟨j, hj⟩) (b := ⟨i, hi⟩) hlt
    exact absurd h (not_lt.mpr hrel)
  · have : i = j := Nat.le_antisymm hge hij
    subst this
    exact lt_irrefl _ h

/-- C4 witness: sorting the two-row demo input puts the 10-point record at
position 0 and the 1-point record at position 1. -/
theorem c4_points_desc_witness :
    ((sortByPointsDesc demoSnapshotInput).get ⟨1, by decide⟩).Points <
      ((sortByPointsDesc demoSnapshotInput).get ⟨0, by decide⟩).Points ∧
    (0 : Nat) < 1 :=
  ⟨by decide, c4_points_desc demoSnapshotInput 0 1 (by decide) (by decide) (by decide)⟩

/-- C5 counterexample, two concrete inputs refuting two parts of the claim:
(1) a 2xx response whose player entry lacks the `firstName` key is a
malformed response structure, and the resulting `KeyError` propagates out of
`get_team_stats` instead of being converted to an empty result; (2) a non-2xx
status outside 400-599 — here 300 — is not converted to an empty result:
`raise_for_status` raises only for 4xx/5xx, so the parseable body's skaters
are returned as data. -/
theorem c5_counterexample :
    (get_team_stats "BOS"
        (HttpResult.response 200 (.ok ⟨some [badSkater]⟩))).result =
      .error PyExc.keyError ∧
    (get_team_stats "BOS"
        (HttpResult.response 300 (.ok ⟨some [goodSkater]⟩))).result =
      .ok [demoRawBOS] ∧
    ([demoRawBOS] : List Row) ≠ [] :=
  ⟨rfl, rfl, by simp⟩

/-- C5 amended: every transport failure the `except RequestException` clause
covers — timeout/connection error, HTTP 4xx/5xx status other than 429, or a
JSON parse failure — is caught inside the fetcher and converted to an empty
result without raising.  The two divergences from the original claim are the
two conjuncts of the counterexample: a 3xx status is not treated as a
failure (its parsed body is processed as data), and a malformed player entry
in a successful response raises `KeyError` past the fetch call. -/
theorem c5_amended_failures_contained (team : String) (o : HttpResult)
    (h : handledTransportFailure o) :
    (get_team_stats team o).result = .ok [] := by
  cases o with
  | transportError => rfl
  | response s b =>
    by_cases h429 : s = 429
    · simp [get_team_stats, h429]
    · rcases h with ⟨h400, h600, _⟩ | hb
      · simp [get_team_stats, h429, h400, h600]
      · subst hb
        by_cases hr : 400 ≤ s ∧ s < 600
        · simp [get_team_stats, h429, hr]
        · simp [get_team_stats, h429, hr]

/-- C5 witness: a transport error is a handled failure and produces an empty
result. -/
theorem c5_amended_failures_contained_witness :
    handledTransportFailure HttpResult.transportError ∧
      (get_team_stats "BOS" HttpResult.transportError).result = .ok [] :=
  ⟨trivial, c5_amended_failures_contained "BOS" HttpResult.transportError trivial⟩

/-- C6: a 429 response makes the fetcher sleep 5 seconds and return an empty
result without raising, and the cycle's accumulation over the remaining
entities is exactly what it would have been without the rate-limited entity,
so a 429 for one entity does not prevent the others from being fetched. -/
theorem c6_rate_limit_pauses_and_returns_empty (team : String)
    (b : Except Unit ClubStatsJson) (rest : List (String × HttpResult)) :
    (get_team_stats team (HttpResult.response 429 b)).result = .ok [] ∧
    (get_team_stats team (HttpResult.response 429 b)).sleptSeconds = 5 ∧
    fetchAll ((team, HttpResult.response 429 b) :: rest) = fetchAll rest := by
  refine ⟨rfl, rfl, ?_⟩
  cases hfa : fetchAll rest with
  | error e => simp only [fetchAll, get_team_stats, hfa]; rfl
  | ok acc => simp only [fetchAll, get_team_stats, hfa]; rfl

/-- C7: a cycle whose accumulated result set is empty performs no enrichment
and no write, reports "No data received.", and proceeds to the fixed sleep. -/
theorem c7_empty_cycle_skips_write (outcomes : List (String × HttpResult))
    (ts : String) (w : WriteOutcome) (h : fetchAll outcomes = .ok []) :
    runCycle outcomes ts w =
      .ok { enriched := false, written := none, message := "No data received.",
            sleepSeconds := REFRESH_RATE_MINUTES * 60 } := by
  unfold runCycle
  rw [h]
  rfl

/-- C7 witness: a cycle over one entity whose fetch hits a transport error
accumulates nothing and skips the write. -/
theorem c7_empty_cycle_skips_write_witness :
    fetchAll [("BOS", HttpResult.transportError)] = .ok [] ∧
      runCycle [("BOS", HttpResult.transportError)] "t" WriteOutcome.ok =
        .ok { enriched := false, written := none,
              message := "No data received.",
              sleepSeconds := REFRESH_RATE_MINUTES * 60 } :=
  ⟨rfl, c7_empty_cycle_skips_write _ "t" WriteOutcome.ok rfl⟩

/-- C8: when the destination file is locked (`PermissionError` at write
time) on a cycle with data, the error is caught and reported, the cycle body
returns normally (no crash), nothing is written — the in-memory snapshot is
discarded — and the loop proceeds to the sleep. -/
theorem c8_locked_write_contained (all_data : List Row) (ts : String)
    (h : all_data ≠ []) :
    cycleBody all_data ts WriteOutcome.permissionError =
      .ok { enriched := true, written := none,
            message := "ERROR: Close the CSV file! Cannot write while open.",
            sleepSeconds := REFRESH_RATE_MINUTES * 60 } := by
  cases all_data with
  | nil => exact absurd rfl h
  | cons a as => rfl

/-- C8 witness: a one-row cycle with a locked destination. -/
theorem c8_locked_write_contained_witness :
    ([demoRowOTT] : List Row) ≠ [] ∧
      cycleBody [demoRowOTT] "t" WriteOutcome.permissionError =
        .ok { enriched := true, written := none,
              message := "ERROR: Close the CSV file! Cannot write while open.",
              sleepSeconds := REFRESH_RATE_MINUTES * 60 } :=
  ⟨by simp, c8_locked_write_contained [demoRowOTT] "t" (by simp)⟩

/-- C9: enrichment is idempotent on the base fields: recomputing the derived
columns from the unchanged base columns of an already-enriched collection
yields the same records. -/
theorem c9_enrichment_idempotent (ts : String) (l : List Row) :
    enrich_data ts (enrich_data ts l) = enrich_data ts l := by
  simp [enrich_data, List.map_map, Function.comp, enrichRow_idem]

/-- C10: a successful (2xx) fetch whose parsed body lacks the top-level
`skaters` field returns an empty result rather than raising — the same
outcome as an entity reporting no players. -/
theorem c10_missing_skaters_field_empty (team : String) (s : Nat)
    (j : ClubStatsJson) (h2 : 200 ≤ s) (h3 : s < 300) (hs : j.skaters = none) :
    (get_team_stats team (HttpResult.response s (.ok j))).result = .ok [] := by
  have h429 : ¬ s = 429 := by omega
  have hr : ¬ (400 ≤ s ∧ s < 600) := by omega
  simp only [get_team_stats, h429, hr, hs, if_false, if_neg, Option.getD_none]
  rfl

/-- C10 witness: a 200 response whose body parses to an object with no
`skaters` key yields an empty result. -/
theorem c10_missing_skaters_field_empty_witness :
    (200 ≤ 200 ∧ 200 < 300) ∧
      (get_team_stats "BOS" (HttpResult.response 200 (.ok ⟨none⟩))).result = .ok [] :=
  ⟨by decide, c10_missing_skaters_field_empty "BOS" 200 ⟨none⟩ (by decide) (by decide) rfl⟩
